import Mathlib

/-!
Verification of the SurrealDB HTTP client (`surrealdb/http.py`).

The client is a thin request/response mapping layer.  We embed it shallowly:

* Python strings become `PyStr := List Char`, so that the string operations
  used by the source (`str.split`, `in`, f-string concatenation) are
  inductively defined and amenable to proof.
* Decoded JSON values become the inductive `JValue`.
* The network transport (aiohttp session `request` + `response.text()` +
  `json.loads`) is abstracted as an oracle `server : Request → JValue`
  mapping the fully built HTTP request to the decoded JSON response.
* Python exceptions become the `PyError` sum; each operation returns
  `Option Request × Except PyError JValue`: the request it issued (if it got
  that far) and either the produced value or the exception raised.
-/

set_option autoImplicit false

/-- A Python string, embedded as its list of characters. -/
abbrev PyStr := List Char

/-- Turn a Lean string literal into a `PyStr`. -/
def pystr (s : String) : PyStr := s.data

/-- A decoded JSON value, as produced by `json.loads`. -/
inductive JValue where
  | null : JValue
  | boolean : Bool → JValue
  | num : Int → JValue
  | str : PyStr → JValue
  | arr : List JValue → JValue
  | obj : List (PyStr × JValue) → JValue

/-- The Python exceptions the client can raise. -/
inductive PyError where
  | valueError : PyStr → PyError
  | indexError : PyError
  | keyError : PyStr → PyError
  | typeError : PyError
  | surrealException : PyStr → PyError
deriving DecidableEq, Repr

/-- One hex digit, lower case, as `json.dumps` renders escapes. -/
def hexDigit (n : Nat) : Char :=
  if n < 10 then Char.ofNat (48 + n) else Char.ofNat (87 + n)

/-- Escaping of a single character in a JSON string literal, following
`json.dumps` with `ensure_ascii=False` (so non-ASCII characters pass
through unescaped). -/
def jsonEscapeChar (c : Char) : PyStr :=
  if c = '"' then ['\\', '"']
  else if c = '\\' then ['\\', '\\']
  else if c = '\n' then ['\\', 'n']
  else if c = '\t' then ['\\', 't']
  else if c = '\r' then ['\\', 'r']
  else if c = '\x08' then ['\\', 'b']
  else if c = '\x0c' then ['\\', 'f']
  else if c.toNat < 32 then
    ['\\', 'u', '0', '0', hexDigit (c.toNat / 16), hexDigit (c.toNat % 16)]
  else [c]

/-- Escape a whole JSON string body. -/
def jsonEscape (s : PyStr) : PyStr :=
  s.foldr (fun c acc => jsonEscapeChar c ++ acc) []

/-- Render a JSON string literal: quotes around the escaped body. -/
def jsonStr (s : PyStr) : PyStr :=
  '"' :: (jsonEscape s ++ ['"'])

mutual

/-- `json.dumps(v, ensure_ascii=False)` with the default separators
`", "` and `": "`. -/
def jsonDumps : JValue → PyStr
  | .null => pystr "null"
  | .boolean true => pystr "true"
  | .boolean false => pystr "false"
  | .num n => (toString n).data
  | .str s => jsonStr s
  | .arr xs => '[' :: (jsonDumpsList xs ++ [']'])
  | .obj fs => '\x7b' :: (jsonDumpsObj fs ++ ['\x7d'])
termination_by structural v => v

/-- Render a JSON array body, separating items with `", "`. -/
def jsonDumpsList : List JValue → PyStr
  | [] => []
  | [x] => jsonDumps x
  | x :: y :: xs => jsonDumps x ++ pystr ", " ++ jsonDumpsList (y :: xs)
termination_by structural l => l

/-- Render a JSON object body, separating entries with `", "` and
keys from values with `": "` (dict keys are rendered as JSON strings). -/
def jsonDumpsObj : List (PyStr × JValue) → PyStr
  | [] => []
  | [(k, v)] => jsonStr k ++ pystr ": " ++ jsonDumps v
  | (k, v) :: e :: fs =>
      jsonStr k ++ pystr ": " ++ jsonDumps v ++ pystr ", "
        ++ jsonDumpsObj (e :: fs)
termination_by structural l => l

end

instance {ε α : Type} [DecidableEq ε] [DecidableEq α] : DecidableEq (Except ε α) :=
  fun x y =>
    match x, y with
    | .ok a, .ok b =>
        if h : a = b then .isTrue (by rw [h]) else .isFalse (by simp [h])
    | .error a, .error b =>
        if h : a = b then .isTrue (by rw [h]) else .isFalse (by simp [h])
    | .ok _, .error _ => .isFalse (by simp)
    | .error _, .ok _ => .isFalse (by simp)

/-- Python truthiness of a decoded JSON value (`bool(v)`). -/
def truthy : JValue → Bool
  | .null => false
  | .boolean b => b
  | .num n => n != 0
  | .str s => !s.isEmpty
  | .arr xs => !xs.isEmpty
  | .obj fs => !fs.isEmpty

/-- Python dict lookup on the field list of a JSON object: later bindings
shadow earlier ones, as in a `dict`. -/
def dictLookup (fs : List (PyStr × JValue)) (k : PyStr) : Option JValue :=
  fs.foldl (fun acc p => if p.1 = k then some p.2 else acc) none

/-- Python `v[0]` on a decoded JSON value. Lists and strings index their
first element (raising `IndexError` when empty); a dict raises `KeyError`
(its keys are strings, never the integer `0`); other values raise
`TypeError`. -/
def subscript0 : JValue → Except PyError JValue
  | .arr [] => .error .indexError
  | .arr (x :: _) => .ok x
  | .str [] => .error .indexError
  | .str (c :: _) => .ok (.str [c])
  | .obj _ => .error (.keyError (pystr "0"))
  | .null | .boolean _ | .num _ => .error .typeError

/-- Python `v[k]` for a string key `k`: only a dict supports it. -/
def getItem (v : JValue) (k : PyStr) : Except PyError JValue :=
  match v with
  | .obj fs =>
      match dictLookup fs k with
      | some x => .ok x
      | none => .error (.keyError k)
  | _ => .error .typeError

/-- The unwrap `response[0]["result"]` shared by select/create/update/patch;
an exception from the subscript propagates. -/
def firstResult (v : JValue) : Except PyError JValue :=
  match subscript0 v with
  | .error e => .error e
  | .ok e => getItem e (pystr "result")

/-- Python `s.split(sep)` for a single-character separator: split on every
occurrence, keeping empty pieces. -/
def pysplit (sep : Char) : PyStr → List PyStr
  | [] => [[]]
  | c :: rest =>
      let r := pysplit sep rest
      if c = sep then [] :: r
      else
        match r with
        | [] => [[c]]
        | h :: t => (c :: h) :: t

/-- The thing decomposition written inline in each CRUD operation:
`table, record_id = thing.split(":") if ":" in thing else (thing, None)`.
Unpacking a split with a number of pieces other than two raises
`ValueError`. -/
def parseThing (thing : PyStr) : Except PyError (PyStr × Option PyStr) :=
  if thing.contains ':' then
    match pysplit ':' thing with
    | [] => .error (.valueError (pystr "not enough values to unpack"))
    | [_] => .error (.valueError (pystr "not enough values to unpack"))
    | [table, rid] => .ok (table, some rid)
    | _ => .error (.valueError (pystr "too many values to unpack"))
  else
    .ok (thing, none)

/-- The URI built by each CRUD operation:
`f"/key/{table}/{record_id}" if record_id else f"/key/{table}"`.
The id segment is emitted only when `record_id` is truthy, i.e. present
and non-empty. -/
def keyUri (table : PyStr) (record_id : Option PyStr) : PyStr :=
  match record_id with
  | some rid =>
      if rid.isEmpty then pystr "/key/" ++ table
      else pystr "/key/" ++ table ++ pystr "/" ++ rid
  | none => pystr "/key/" ++ table

/-- `aiohttp.BasicAuth(login=..., password=...)`. -/
structure BasicAuth where
  login : PyStr
  password : PyStr
deriving DecidableEq, Repr

/-- A fully built HTTP request as handed to the transport. -/
structure Request where
  method : PyStr
  url : PyStr
  data : Option PyStr
  params : Option (List (PyStr × JValue))
  headers : List (PyStr × PyStr)
  auth : BasicAuth

/-- The aiohttp client session, reduced to the one observable this layer
manages: whether it has been closed. -/
structure Session where
  closed : Bool
deriving DecidableEq, Repr

/-- `session.close()` — idempotent in aiohttp. -/
def Session.close (_ : Session) : Session := ⟨true⟩

/-- The `SurrealHTTP` client state set up by `__init__`. -/
structure SurrealHTTP where
  url : PyStr
  nspace : PyStr
  database : PyStr
  username : PyStr
  password : PyStr
  session : Session
  should_close_session : Bool
deriving DecidableEq, Repr

/-- `SurrealHTTP.__init__`: store the connection identity; create an owned
session when none is supplied, otherwise borrow the given one. -/
def SurrealHTTP.init (url nspace database username password : PyStr)
    (session : Option Session) : SurrealHTTP :=
  match session with
  | none =>
      { url := url, nspace := nspace, database := database,
        username := username, password := password,
        session := ⟨false⟩, should_close_session := true }
  | some s =>
      { url := url, nspace := nspace, database := database,
        username := username, password := password,
        session := s, should_close_session := false }

/-- `_generate_headers_and_auth`: headers and Basic Auth recomputed from the
stored connection identity. -/
def SurrealHTTP.generateHeadersAndAuth (c : SurrealHTTP) :
    List (PyStr × PyStr) × BasicAuth :=
  ([(pystr "NS", c.nspace),
    (pystr "DB", c.database),
    (pystr "Accept", pystr "application/json"),
    (pystr "Content-Type", pystr "application/json")],
   ⟨c.username, c.password⟩)

/-- `close`: close the session only when it is owned. -/
def SurrealHTTP.close (c : SurrealHTTP) : SurrealHTTP :=
  if c.should_close_session then { c with session := c.session.close } else c

/-- `__aenter__` returns the client itself. -/
def SurrealHTTP.aenter (c : SurrealHTTP) : SurrealHTTP := c

/-- `__aexit__` calls `close`. -/
def SurrealHTTP.aexit (c : SurrealHTTP) : SurrealHTTP := c.close

/-- `_request`: derive headers and auth, build the request against
`self._url + uri`, hand it to the transport, and return the decoded JSON
response (the transport plus `json.loads` is the oracle `server`). -/
def SurrealHTTP.request (c : SurrealHTTP) (server : Request → JValue)
    (method uri : PyStr) (data : Option PyStr)
    (params : Option (List (PyStr × JValue))) : Request × JValue :=
  let ha := c.generateHeadersAndAuth
  let req : Request :=
    { method := method, url := c.url ++ uri, data := data, params := params,
      headers := ha.1, auth := ha.2 }
  (req, server req)

/-- `signup(vars)`: POST `/signup` with the JSON-encoded vars; the parsed
response is returned as-is. -/
def SurrealHTTP.signup (c : SurrealHTTP) (server : Request → JValue)
    (vars : JValue) : Option Request × Except PyError JValue :=
  let rr := c.request server (pystr "POST") (pystr "/signup")
    (some (jsonDumps vars)) none
  (some rr.1, .ok rr.2)

/-- `signin(vars)`: POST `/signin` with the JSON-encoded vars; the parsed
response is returned as-is. -/
def SurrealHTTP.signin (c : SurrealHTTP) (server : Request → JValue)
    (vars : JValue) : Option Request × Except PyError JValue :=
  let rr := c.request server (pystr "POST") (pystr "/signin")
    (some (jsonDumps vars)) none
  (some rr.1, .ok rr.2)

/-- `query(sql, vars)`: POST `/sql` with the raw SQL string as body and the
vars mapping as query parameters; the parsed response is returned as-is. -/
def SurrealHTTP.query (c : SurrealHTTP) (server : Request → JValue)
    (sql : PyStr) (vars : Option (List (PyStr × JValue))) :
    Option Request × Except PyError JValue :=
  let rr := c.request server (pystr "POST") (pystr "/sql") (some sql) vars
  (some rr.1, .ok rr.2)

/-- `select(thing)`: GET on the key URI; raise the not-found
`SurrealException` when the response is falsy and a record id was parsed;
otherwise unwrap `response[0]["result"]`. -/
def SurrealHTTP.select (c : SurrealHTTP) (server : Request → JValue)
    (thing : PyStr) : Option Request × Except PyError JValue :=
  match parseThing thing with
  | .error e => (none, .error e)
  | .ok (table, record_id) =>
      let rr := c.request server (pystr "GET") (keyUri table record_id)
        none none
      match record_id, truthy rr.2 with
      | some rid, false =>
          (some rr.1, .error (.surrealException
            (pystr "Key " ++ rid ++ pystr " not found in table " ++ table)))
      | _, _ => (some rr.1, firstResult rr.2)

/-- `create(thing, data)`: POST on the key URI with the JSON-encoded data;
the same not-found check as `select`, then unwrap `response[0]["result"]`. -/
def SurrealHTTP.create (c : SurrealHTTP) (server : Request → JValue)
    (thing : PyStr) (data : JValue) : Option Request × Except PyError JValue :=
  match parseThing thing with
  | .error e => (none, .error e)
  | .ok (table, record_id) =>
      let rr := c.request server (pystr "POST") (keyUri table record_id)
        (some (jsonDumps data)) none
      match record_id, truthy rr.2 with
      | some rid, false =>
          (some rr.1, .error (.surrealException
            (pystr "Key " ++ rid ++ pystr " not found in table " ++ table)))
      | _, _ => (some rr.1, firstResult rr.2)

/-- `update(thing, data)`: PUT on the key URI with the JSON-encoded data;
unwrap `response[0]["result"]` with no not-found check. -/
def SurrealHTTP.update (c : SurrealHTTP) (server : Request → JValue)
    (thing : PyStr) (data : JValue) : Option Request × Except PyError JValue :=
  match parseThing thing with
  | .error e => (none, .error e)
  | .ok (table, record_id) =>
      let rr := c.request server (pystr "PUT") (keyUri table record_id)
        (some (jsonDumps data)) none
      (some rr.1, firstResult rr.2)

/-- `patch(thing, data)`: PATCH on the key URI with the JSON-encoded data;
unwrap `response[0]["result"]` with no not-found check. -/
def SurrealHTTP.patch (c : SurrealHTTP) (server : Request → JValue)
    (thing : PyStr) (data : JValue) : Option Request × Except PyError JValue :=
  match parseThing thing with
  | .error e => (none, .error e)
  | .ok (table, record_id) =>
      let rr := c.request server (pystr "PATCH") (keyUri table record_id)
        (some (jsonDumps data)) none
      (some rr.1, firstResult rr.2)

/-- `delete(thing)`: DELETE on the key URI with no body; the parsed response
is returned as-is, never unwrapped. -/
def SurrealHTTP.delete (c : SurrealHTTP) (server : Request → JValue)
    (thing : PyStr) : Option Request × Except PyError JValue :=
  match parseThing thing with
  | .error e => (none, .error e)
  | .ok (table, record_id) =>
      let rr := c.request server (pystr "DELETE") (keyUri table record_id)
        none none
      (some rr.1, .ok rr.2)

/-! ### String-splitting facts -/

/-- The substring before the first colon. -/
def beforeColon (s : PyStr) : PyStr := s.takeWhile (fun c => c != ':')

/-- The substring after the first colon. -/
def afterColon (s : PyStr) : PyStr := (s.dropWhile (fun c => c != ':')).tail

theorem pysplit_ne_nil (sep : Char) (s : PyStr) : pysplit sep s ≠ [] := by
  cases s with
  | nil => simp [pysplit]
  | cons c rest =>
      unfold pysplit
      by_cases h : c = sep
      · simp [h]
      · simp only [if_neg h]
        cases pysplit sep rest with
        | nil => simp
        | cons hd tl => simp

theorem pysplit_length (sep : Char) (s : PyStr) :
    (pysplit sep s).length = s.count sep + 1 := by
  induction s with
  | nil => simp [pysplit]
  | cons c rest ih =>
      rw [List.count_cons]
      by_cases h : c = sep
      · subst h
        simp [pysplit, ih]
      · cases hr : pysplit sep rest with
        | nil => exact absurd hr (pysplit_ne_nil sep rest)
        | cons hd tl =>
            rw [hr] at ih
            simp only [pysplit, hr, if_neg h, List.length_cons]
            simp only [List.length_cons] at ih
            simp [beq_iff_eq, h, ih]

theorem pysplit_of_count_zero (sep : Char) (s : PyStr) (h : s.count sep = 0) :
    pysplit sep s = [s] := by
  induction s with
  | nil => simp [pysplit]
  | cons c rest ih =>
      rw [List.count_cons] at h
      by_cases hc : c = sep
      · simp [hc] at h
      · have h0 : rest.count sep = 0 := by
          simp [beq_iff_eq, hc] at h
          exact h
        simp [pysplit, hc, ih h0]

theorem pysplit_of_count_one (s : PyStr) (h : s.count ':' = 1) :
    pysplit ':' s = [beforeColon s, afterColon s] := by
  induction s with
  | nil => simp at h
  | cons c rest ih =>
      rw [List.count_cons] at h
      by_cases hc : c = ':'
      · subst hc
        have h0 : rest.count ':' = 0 := by
          simp at h
          exact h
        simp [pysplit, beforeColon, afterColon, pysplit_of_count_zero ':' rest h0]
      · have h1 : rest.count ':' = 1 := by
          simp [beq_iff_eq, hc] at h
          exact h
        have := ih h1
        simp only [pysplit, this, if_neg hc, beforeColon, afterColon,
          List.takeWhile_cons, List.dropWhile_cons]
        simp [bne_iff_ne, hc, beforeColon, afterColon]

theorem contains_of_count_pos {s : PyStr} {a : Char} (h : 0 < s.count a) :
    s.contains a = true := by
  have hm : a ∈ s := List.count_pos_iff.mp h
  simpa [List.contains] using List.elem_iff.mpr hm

/-! ### Characterizations of the thing decomposition -/

theorem parseThing_of_not_contains (s : PyStr) (h : s.contains ':' = false) :
    parseThing s = .ok (s, none) := by
  simp only [parseThing, h, Bool.false_eq_true, if_false]

theorem parseThing_of_count_one (s : PyStr) (h : s.count ':' = 1) :
    parseThing s = .ok (beforeColon s, some (afterColon s)) := by
  have hc : s.contains ':' = true := contains_of_count_pos (by omega)
  simp only [parseThing, hc, if_true, pysplit_of_count_one s h]

theorem parseThing_of_count_ge_two (s : PyStr) (h : 2 ≤ s.count ':') :
    parseThing s = .error (.valueError (pystr "too many values to unpack")) := by
  have hc : s.contains ':' = true := contains_of_count_pos (by omega)
  have hl : 3 ≤ (pysplit ':' s).length := by
    rw [pysplit_length]
    omega
  rcases hp : pysplit ':' s with _ | ⟨x, _ | ⟨y, _ | ⟨z, t⟩⟩⟩
  · rw [hp] at hl
    simp at hl
  · rw [hp] at hl
    simp at hl
  · rw [hp] at hl
    simp at hl
  · simp only [parseThing, hc, if_true, hp]

/-! ### The unwrap never raises the not-found exception -/

theorem subscript0_ne_surreal (v : JValue) (m : PyStr) :
    subscript0 v ≠ .error (.surrealException m) := by
  cases v with
  | null => simp [subscript0]
  | boolean b => simp [subscript0]
  | num n => simp [subscript0]
  | str s => cases s <;> simp [subscript0]
  | arr xs => cases xs <;> simp [subscript0]
  | obj fs => simp [subscript0]

theorem getItem_ne_surreal (v : JValue) (k m : PyStr) :
    getItem v k ≠ .error (.surrealException m) := by
  unfold getItem
  split
  · split <;> simp
  · simp

theorem firstResult_ne_surreal (v : JValue) (m : PyStr) :
    firstResult v ≠ .error (.surrealException m) := by
  unfold firstResult
  cases h : subscript0 v with
  | error e =>
      intro hc
      injection hc with h2
      exact subscript0_ne_surreal v m (by rw [h, h2])
  | ok x => exact getItem_ne_surreal x (pystr "result") m

/-! ### Shared observation helpers and concrete instances -/

/-- The URL of the request an operation issued, when it issued one. -/
def issuedUrl (x : Option Request × Except PyError JValue) : Option PyStr :=
  x.1.map Request.url

/-- The headers the specification promises on every request, stated from
the spec's words. -/
def specHeaders (c : SurrealHTTP) : List (PyStr × PyStr) :=
  [(pystr "NS", c.nspace), (pystr "DB", c.database),
   (pystr "Accept", pystr "application/json"),
   (pystr "Content-Type", pystr "application/json")]

/-- The Basic Auth credentials the specification promises on every
request, stated from the spec's words. -/
def specAuth (c : SurrealHTTP) : BasicAuth :=
  { login := c.username, password := c.password }

/-- A concrete client used to instantiate theorems on closed inputs. -/
def demoClient : SurrealHTTP :=
  SurrealHTTP.init (pystr "http://127.0.0.1:8000") (pystr "test") (pystr "test")
    (pystr "root") (pystr "root") none

/-! ### The issued request of each CRUD operation -/

theorem ops_fst (c : SurrealHTTP) (server : Request → JValue)
    (thing table : PyStr) (rid : Option PyStr) (data : JValue)
    (h : parseThing thing = .ok (table, rid)) :
    (c.select server thing).1 =
      some (c.request server (pystr "GET") (keyUri table rid) none none).1 ∧
    (c.create server thing data).1 =
      some (c.request server (pystr "POST") (keyUri table rid)
        (some (jsonDumps data)) none).1 ∧
    (c.update server thing data).1 =
      some (c.request server (pystr "PUT") (keyUri table rid)
        (some (jsonDumps data)) none).1 ∧
    (c.patch server thing data).1 =
      some (c.request server (pystr "PATCH") (keyUri table rid)
        (some (jsonDumps data)) none).1 ∧
    (c.delete server thing).1 =
      some (c.request server (pystr "DELETE") (keyUri table rid) none none).1 := by
  refine ⟨?_, ?_, ?_, ?_, ?_⟩
  · unfold SurrealHTTP.select
    split
    next e heq => rw [h] at heq; exact absurd heq (by simp)
    next t2 r2 heq =>
      rw [h] at heq
      injection heq with h2
      injection h2 with h3 h4
      subst h3; subst h4
      rcases rid with _ | rr
      · rfl
      · simp only []
        split <;> rfl
  · unfold SurrealHTTP.create
    split
    next e heq => rw [h] at heq; exact absurd heq (by simp)
    next t2 r2 heq =>
      rw [h] at heq
      injection heq with h2
      injection h2 with h3 h4
      subst h3; subst h4
      rcases rid with _ | rr
      · rfl
      · simp only []
        split <;> rfl
  · unfold SurrealHTTP.update
    split
    next e heq => rw [h] at heq; exact absurd heq (by simp)
    next t2 r2 heq =>
      rw [h] at heq
      injection heq with h2
      injection h2 with h3 h4
      subst h3; subst h4
      rfl
  · unfold SurrealHTTP.patch
    split
    next e heq => rw [h] at heq; exact absurd heq (by simp)
    next t2 r2 heq =>
      rw [h] at heq
      injection heq with h2
      injection h2 with h3 h4
      subst h3; subst h4
      rfl
  · unfold SurrealHTTP.delete
    split
    next e heq => rw [h] at heq; exact absurd heq (by simp)
    next t2 r2 heq =>
      rw [h] at heq
      injection heq with h2
      injection h2 with h3 h4
      subst h3; subst h4
      rfl

theorem ops_of_parse_error (c : SurrealHTTP) (server : Request → JValue)
    (thing : PyStr) (data : JValue) (e : PyError)
    (h : parseThing thing = .error e) :
    c.select server thing = (none, .error e) ∧
    c.create server thing data = (none, .error e) ∧
    c.update server thing data = (none, .error e) ∧
    c.patch server thing data = (none, .error e) ∧
    c.delete server thing = (none, .error e) := by
  refine ⟨?_, ?_, ?_, ?_, ?_⟩
  · unfold SurrealHTTP.select
    split
    next e2 heq => rw [h] at heq; injection heq with h2; subst h2; rfl
    next t2 r2 heq => rw [h] at heq; exact absurd heq (by simp)
  · unfold SurrealHTTP.create
    split
    next e2 heq => rw [h] at heq; injection heq with h2; subst h2; rfl
    next t2 r2 heq => rw [h] at heq; exact absurd heq (by simp)
  · unfold SurrealHTTP.update
    split
    next e2 heq => rw [h] at heq; injection heq with h2; subst h2; rfl
    next t2 r2 heq => rw [h] at heq; exact absurd heq (by simp)
  · unfold SurrealHTTP.patch
    split
    next e2 heq => rw [h] at heq; injection heq with h2; subst h2; rfl
    next t2 r2 heq => rw [h] at heq; exact absurd heq (by simp)
  · unfold SurrealHTTP.delete
    split
    next e2 heq => rw [h] at heq; injection heq with h2; subst h2; rfl
    next t2 r2 heq => rw [h] at heq; exact absurd heq (by simp)

theorem issuedUrl_ops (c : SurrealHTTP) (server : Request → JValue)
    (thing table : PyStr) (rid : Option PyStr) (data : JValue)
    (h : parseThing thing = .ok (table, rid)) :
    issuedUrl (c.select server thing) = some (c.url ++ keyUri table rid) ∧
    issuedUrl (c.create server thing data) = some (c.url ++ keyUri table rid) ∧
    issuedUrl (c.update server thing data) = some (c.url ++ keyUri table rid) ∧
    issuedUrl (c.patch server thing data) = some (c.url ++ keyUri table rid) ∧
    issuedUrl (c.delete server thing) = some (c.url ++ keyUri table rid) := by
  obtain ⟨f1, f2, f3, f4, f5⟩ := ops_fst c server thing table rid data h
  refine ⟨?_, ?_, ?_, ?_, ?_⟩
  · unfold issuedUrl
    rw [f1]
    rfl
  · unfold issuedUrl
    rw [f2]
    rfl
  · unfold issuedUrl
    rw [f3]
    rfl
  · unfold issuedUrl
    rw [f4]
    rfl
  · unfold issuedUrl
    rw [f5]
    rfl

/-! ### Claim theorems -/

/-- C1 (amended): for a `thing` containing exactly one colon, the shared
decomposition yields (substring before the colon, substring after it) and
each of select, create, update, patch and delete issues its request on the
path built from that decomposition; for a `thing` without a colon the
record id is absent and every one of the five operations requests the
table-only path; for a `thing` with two or more colons the unpacking
raises `ValueError` and no request is issued. -/
theorem C1_split_on_first_colon (c : SurrealHTTP) (server : Request → JValue)
    (thing : PyStr) (data : JValue) :
    (thing.count ':' = 1 →
      parseThing thing = .ok (beforeColon thing, some (afterColon thing)) ∧
      issuedUrl (c.select server thing) =
        some (c.url ++ keyUri (beforeColon thing) (some (afterColon thing))) ∧
      issuedUrl (c.create server thing data) =
        some (c.url ++ keyUri (beforeColon thing) (some (afterColon thing))) ∧
      issuedUrl (c.update server thing data) =
        some (c.url ++ keyUri (beforeColon thing) (some (afterColon thing))) ∧
      issuedUrl (c.patch server thing data) =
        some (c.url ++ keyUri (beforeColon thing) (some (afterColon thing))) ∧
      issuedUrl (c.delete server thing) =
        some (c.url ++ keyUri (beforeColon thing) (some (afterColon thing)))) ∧
    (thing.contains ':' = false →
      parseThing thing = .ok (thing, none) ∧
      issuedUrl (c.select server thing) = some (c.url ++ (pystr "/key/" ++ thing)) ∧
      issuedUrl (c.create server thing data) = some (c.url ++ (pystr "/key/" ++ thing)) ∧
      issuedUrl (c.update server thing data) = some (c.url ++ (pystr "/key/" ++ thing)) ∧
      issuedUrl (c.patch server thing data) = some (c.url ++ (pystr "/key/" ++ thing)) ∧
      issuedUrl (c.delete server thing) = some (c.url ++ (pystr "/key/" ++ thing))) ∧
    (2 ≤ thing.count ':' →
      c.select server thing =
        (none, .error (.valueError (pystr "too many values to unpack"))) ∧
      c.create server thing data =
        (none, .error (.valueError (pystr "too many values to unpack"))) ∧
      c.update server thing data =
        (none, .error (.valueError (pystr "too many values to unpack"))) ∧
      c.patch server thing data =
        (none, .error (.valueError (pystr "too many values to unpack"))) ∧
      c.delete server thing =
        (none, .error (.valueError (pystr "too many values to unpack")))) := by
  refine ⟨fun h1 => ?_, fun h2 => ?_, fun h3 => ?_⟩
  · have hp := parseThing_of_count_one thing h1
    obtain ⟨u1, u2, u3, u4, u5⟩ := issuedUrl_ops c server thing _ _ data hp
    exact ⟨hp, u1, u2, u3, u4, u5⟩
  · have hp := parseThing_of_not_contains thing h2
    obtain ⟨u1, u2, u3, u4, u5⟩ := issuedUrl_ops c server thing _ _ data hp
    exact ⟨hp, u1, u2, u3, u4, u5⟩
  · exact ops_of_parse_error c server thing data _
      (parseThing_of_count_ge_two thing h3)

/-- C1 counterexample: `"a:b:c"` contains a colon, but select does not
decompose it at the first colon into `("a", "b:c")` — the unpacking of the
three-way split raises `ValueError` and no request is issued at all, in
particular none for `/key/a/b:c`. -/
theorem C1_counterexample :
    (pystr "a:b:c").contains ':' = true ∧
    demoClient.select (fun _ => JValue.null) (pystr "a:b:c") =
      (none, .error (.valueError (pystr "too many values to unpack"))) ∧
    issuedUrl (demoClient.select (fun _ => JValue.null) (pystr "a:b:c")) ≠
      some (demoClient.url ++ (pystr "/key/a/b:c")) := by
  refine ⟨rfl, rfl, ?_⟩
  intro hc
  exact Option.noConfusion hc

/-- C1 witness: the amended theorem applied at a one-colon thing, a
colon-free thing, and a two-colon thing. -/
theorem C1_witness :
    parseThing (pystr "person:tobie") =
      .ok (beforeColon (pystr "person:tobie"), some (afterColon (pystr "person:tobie"))) ∧
    parseThing (pystr "person") = .ok (pystr "person", none) ∧
    demoClient.update (fun _ => JValue.null) (pystr "u:v:w") JValue.null =
      (none, .error (.valueError (pystr "too many values to unpack"))) :=
  ⟨((C1_split_on_first_colon demoClient (fun _ => JValue.null) (pystr "person:tobie")
      JValue.null).1 (by decide)).1,
   ((C1_split_on_first_colon demoClient (fun _ => JValue.null) (pystr "person")
      JValue.null).2.1 (by decide)).1,
   ((C1_split_on_first_colon demoClient (fun _ => JValue.null) (pystr "u:v:w")
      JValue.null).2.2 (by decide)).2.2.1⟩

/-- C2: when a record id was parsed from the thing and the decoded
response is the empty envelope list, select and create raise the dedicated
not-found `SurrealException`; when the thing is table-only, neither select
nor create ever raises that exception, whatever the server returns. -/
theorem C2_record_not_found (c : SurrealHTTP) (thing table rid : PyStr)
    (data : JValue) :
    (parseThing thing = .ok (table, some rid) →
      (c.select (fun _ => JValue.arr []) thing).2 =
        .error (.surrealException
          (pystr "Key " ++ rid ++ pystr " not found in table " ++ table)) ∧
      (c.create (fun _ => JValue.arr []) thing data).2 =
        .error (.surrealException
          (pystr "Key " ++ rid ++ pystr " not found in table " ++ table))) ∧
    (parseThing thing = .ok (table, none) →
      ∀ (server : Request → JValue) (m : PyStr),
        (c.select server thing).2 ≠ .error (.surrealException m) ∧
        (c.create server thing data).2 ≠ .error (.surrealException m)) := by
  constructor
  · intro h
    constructor
    · unfold SurrealHTTP.select
      split
      next e heq => rw [h] at heq; exact absurd heq (by simp)
      next t2 r2 heq =>
        rw [h] at heq
        injection heq with h2
        injection h2 with h3 h4
        subst h3; subst h4
        rfl
    · unfold SurrealHTTP.create
      split
      next e heq => rw [h] at heq; exact absurd heq (by simp)
      next t2 r2 heq =>
        rw [h] at heq
        injection heq with h2
        injection h2 with h3 h4
        subst h3; subst h4
        rfl
  · intro h server m
    constructor
    · unfold SurrealHTTP.select
      split
      next e heq => rw [h] at heq; exact absurd heq (by simp)
      next t2 r2 heq =>
        rw [h] at heq
        injection heq with h2
        injection h2 with h3 h4
        subst h3; subst h4
        exact firstResult_ne_surreal _ m
    · unfold SurrealHTTP.create
      split
      next e heq => rw [h] at heq; exact absurd heq (by simp)
      next t2 r2 heq =>
        rw [h] at heq
        injection heq with h2
        injection h2 with h3 h4
        subst h3; subst h4
        exact firstResult_ne_surreal _ m

/-- C2 witness: a record-scoped select against an empty envelope list
raises the not-found exception; a table-only select never does. -/
theorem C2_witness :
    (demoClient.select (fun _ => JValue.arr []) (pystr "person:missing")).2 =
      .error (.surrealException (pystr "Key missing not found in table person")) ∧
    (demoClient.select (fun _ => JValue.arr []) (pystr "person")).2 ≠
      .error (.surrealException (pystr "boom")) :=
  ⟨((C2_record_not_found demoClient (pystr "person:missing") (pystr "person")
      (pystr "missing") JValue.null).1 (by decide)).1,
   ((C2_record_not_found demoClient (pystr "person") (pystr "person")
      (pystr "missing") JValue.null).2 (by decide) (fun _ => JValue.arr [])
      (pystr "boom")).1⟩

/-- C3: with no externally supplied session the owned session is closed on
scope exit; an externally supplied session is returned untouched on exit;
and close is idempotent. -/
theorem C3_scoped_lifecycle (url nsp db user pass : PyStr) (s : Session)
    (c : SurrealHTTP) :
    ((SurrealHTTP.init url nsp db user pass none).aexit.session.closed = true) ∧
    ((SurrealHTTP.init url nsp db user pass (some s)).aexit.session = s) ∧
    (c.close.close = c.close) := by
  refine ⟨rfl, rfl, ?_⟩
  by_cases h : c.should_close_session = true <;>
    simp [SurrealHTTP.close, h, Session.close]

/-- C4: every request issued by any of the eight operations carries the
`NS`/`DB`/`Accept`/`Content-Type` headers derived from the construction
namespace and database, and Basic Auth built from the construction
username and password. -/
theorem C4_headers_and_auth (c : SurrealHTTP) (server : Request → JValue)
    (vars data : JValue) (sql thing : PyStr)
    (qvars : Option (List (PyStr × JValue))) :
    (∀ r ∈ (c.signup server vars).1,
      r.headers = specHeaders c ∧ r.auth = specAuth c) ∧
    (∀ r ∈ (c.signin server vars).1,
      r.headers = specHeaders c ∧ r.auth = specAuth c) ∧
    (∀ r ∈ (c.query server sql qvars).1,
      r.headers = specHeaders c ∧ r.auth = specAuth c) ∧
    (∀ r ∈ (c.select server thing).1,
      r.headers = specHeaders c ∧ r.auth = specAuth c) ∧
    (∀ r ∈ (c.create server thing data).1,
      r.headers = specHeaders c ∧ r.auth = specAuth c) ∧
    (∀ r ∈ (c.update server thing data).1,
      r.headers = specHeaders c ∧ r.auth = specAuth c) ∧
    (∀ r ∈ (c.patch server thing data).1,
      r.headers = specHeaders c ∧ r.auth = specAuth c) ∧
    (∀ r ∈ (c.delete server thing).1,
      r.headers = specHeaders c ∧ r.auth = specAuth c) := by
  refine ⟨?_, ?_, ?_, ?_, ?_, ?_, ?_, ?_⟩
  · intro r hr
    rw [Option.mem_def] at hr
    have h2 : some ((c.request server (pystr "POST") (pystr "/signup")
      (some (jsonDumps vars)) none).1) = some r := hr
    injection h2 with h3
    subst h3
    exact ⟨rfl, rfl⟩
  · intro r hr
    rw [Option.mem_def] at hr
    have h2 : some ((c.request server (pystr "POST") (pystr "/signin")
      (some (jsonDumps vars)) none).1) = some r := hr
    injection h2 with h3
    subst h3
    exact ⟨rfl, rfl⟩
  · intro r hr
    rw [Option.mem_def] at hr
    have h2 : some ((c.request server (pystr "POST") (pystr "/sql")
      (some sql) qvars).1) = some r := hr
    injection h2 with h3
    subst h3
    exact ⟨rfl, rfl⟩
  · intro r hr
    rw [Option.mem_def] at hr
    rcases hp : parseThing thing with e | ⟨table, rid⟩
    · rw [(ops_of_parse_error c server thing data e hp).1] at hr
      exact absurd hr (by simp)
    · rw [(ops_fst c server thing table rid data hp).1] at hr
      injection hr with h3
      subst h3
      exact ⟨rfl, rfl⟩
  · intro r hr
    rw [Option.mem_def] at hr
    rcases hp : parseThing thing with e | ⟨table, rid⟩
    · rw [(ops_of_parse_error c server thing data e hp).2.1] at hr
      exact absurd hr (by simp)
    · rw [(ops_fst c server thing table rid data hp).2.1] at hr
      injection hr with h3
      subst h3
      exact ⟨rfl, rfl⟩
  · intro r hr
    rw [Option.mem_def] at hr
    rcases hp : parseThing thing with e | ⟨table, rid⟩
    · rw [(ops_of_parse_error c server thing data e hp).2.2.1] at hr
      exact absurd hr (by simp)
    · rw [(ops_fst c server thing table rid data hp).2.2.1] at hr
      injection hr with h3
      subst h3
      exact ⟨rfl, rfl⟩
  · intro r hr
    rw [Option.mem_def] at hr
    rcases hp : parseThing thing with e | ⟨table, rid⟩
    · rw [(ops_of_parse_error c server thing data e hp).2.2.2.1] at hr
      exact absurd hr (by simp)
    · rw [(ops_fst c server thing table rid data hp).2.2.2.1] at hr
      injection hr with h3
      subst h3
      exact ⟨rfl, rfl⟩
  · intro r hr
    rw [Option.mem_def] at hr
    rcases hp : parseThing thing with e | ⟨table, rid⟩
    · rw [(ops_of_parse_error c server thing data e hp).2.2.2.2] at hr
      exact absurd hr (by simp)
    · rw [(ops_fst c server thing table rid data hp).2.2.2.2] at hr
      injection hr with h3
      subst h3
      exact ⟨rfl, rfl⟩

/-- The concrete request that `demoClient.query` issues for the SQL text
`"info"`, with its headers and auth spelled out literally. -/
def demoQueryRequest : Request :=
  { method := pystr "POST", url := pystr "http://127.0.0.1:8000/sql",
    data := some (pystr "info"), params := none,
    headers := [(pystr "NS", pystr "test"), (pystr "DB", pystr "test"),
      (pystr "Accept", pystr "application/json"),
      (pystr "Content-Type", pystr "application/json")],
    auth := { login := pystr "root", password := pystr "root" } }

/-- C4 witness: the request issued by a concrete query call carries the
expected headers and auth. -/
theorem C4_witness :
    demoQueryRequest ∈ (demoClient.query (fun _ => JValue.null) (pystr "info") none).1 ∧
    demoQueryRequest.headers = specHeaders demoClient ∧
    demoQueryRequest.auth = specAuth demoClient := by
  have hm : demoQueryRequest ∈
      (demoClient.query (fun _ => JValue.null) (pystr "info") none).1 := rfl
  have h := (C4_headers_and_auth demoClient (fun _ => JValue.null) JValue.null
    JValue.null (pystr "info") (pystr "person") none).2.2.1 demoQueryRequest hm
  exact ⟨hm, h.1, h.2⟩

/-- C5: delete of `"person:abc"` issues DELETE on `/key/person/abc` with no
body, and returns the decoded response unchanged, never unwrapped. -/
theorem C5_delete_raw (c : SurrealHTTP) (resp : JValue) :
    c.delete (fun _ => resp) (pystr "person:abc") =
      (some { method := pystr "DELETE", url := c.url ++ pystr "/key/person/abc",
              data := none, params := none,
              headers := specHeaders c, auth := specAuth c },
       .ok resp) := rfl

/-- C6: query issues POST on `/sql` with the raw SQL text as body and the
vars mapping as query parameters, and returns the decoded response of that
exact request unchanged. -/
theorem C6_query_raw (c : SurrealHTTP) (server : Request → JValue)
    (sql : PyStr) (vars : Option (List (PyStr × JValue))) :
    c.query server sql vars =
      (some { method := pystr "POST", url := c.url ++ pystr "/sql",
              data := some sql, params := vars,
              headers := specHeaders c, auth := specAuth c },
       .ok (server
         { method := pystr "POST", url := c.url ++ pystr "/sql",
           data := some sql, params := vars,
           headers := specHeaders c, auth := specAuth c })) := rfl

/-- C7: update issues PUT and patch issues PATCH on the key path with the
JSON-encoded data as body, each returning the first envelope's result; and
with an empty envelope list they fail with the subscript `IndexError`
rather than the not-found exception, even for a record-scoped thing. -/
theorem C7_update_patch_unwrap (c : SurrealHTTP) (thing table : PyStr)
    (rid : Option PyStr) (data v : JValue) (rest : List JValue) :
    parseThing thing = .ok (table, rid) →
      c.update (fun _ => JValue.arr (JValue.obj [(pystr "result", v)] :: rest))
          thing data =
        (some { method := pystr "PUT", url := c.url ++ keyUri table rid,
                data := some (jsonDumps data), params := none,
                headers := specHeaders c, auth := specAuth c },
         .ok v) ∧
      c.patch (fun _ => JValue.arr (JValue.obj [(pystr "result", v)] :: rest))
          thing data =
        (some { method := pystr "PATCH", url := c.url ++ keyUri table rid,
                data := some (jsonDumps data), params := none,
                headers := specHeaders c, auth := specAuth c },
         .ok v) ∧
      (c.update (fun _ => JValue.arr []) thing data).2 = .error .indexError ∧
      (c.patch (fun _ => JValue.arr []) thing data).2 = .error .indexError := by
  intro h
  refine ⟨?_, ?_, ?_, ?_⟩
  · unfold SurrealHTTP.update
    split
    next e heq => rw [h] at heq; exact absurd heq (by simp)
    next t2 r2 heq =>
      rw [h] at heq
      injection heq with h2
      injection h2 with h3 h4
      subst h3; subst h4
      rfl
  · unfold SurrealHTTP.patch
    split
    next e heq => rw [h] at heq; exact absurd heq (by simp)
    next t2 r2 heq =>
      rw [h] at heq
      injection heq with h2
      injection h2 with h3 h4
      subst h3; subst h4
      rfl
  · unfold SurrealHTTP.update
    split
    next e heq => rw [h] at heq; exact absurd heq (by simp)
    next t2 r2 heq =>
      rw [h] at heq
      injection heq with h2
      injection h2 with h3 h4
      subst h3; subst h4
      rfl
  · unfold SurrealHTTP.patch
    split
    next e heq => rw [h] at heq; exact absurd heq (by simp)
    next t2 r2 heq =>
      rw [h] at heq
      injection heq with h2
      injection h2 with h3 h4
      subst h3; subst h4
      rfl

/-- C7 witness: a record-scoped update against an empty envelope list
fails with `IndexError`, not the not-found exception. -/
theorem C7_witness :
    (demoClient.update (fun _ => JValue.arr []) (pystr "person:abc")
      JValue.null).2 = .error .indexError :=
  ((C7_update_patch_unwrap demoClient (pystr "person:abc") (pystr "person")
    (some (pystr "abc")) JValue.null JValue.null []) (by decide)).2.2.1

/-- C8: create of table `"person"` with data `\x7b"name": "Tobie"\x7d`
issues POST on `/key/person` with the JSON encoding of the data as body
and returns the first envelope's result. -/
theorem C8_create_person (c : SurrealHTTP) (v : JValue) (rest : List JValue) :
    jsonDumps (JValue.obj [(pystr "name", JValue.str (pystr "Tobie"))]) =
      pystr "\x7b\"name\": \"Tobie\"\x7d" ∧
    c.create (fun _ => JValue.arr (JValue.obj [(pystr "result", v)] :: rest))
        (pystr "person") (JValue.obj [(pystr "name", JValue.str (pystr "Tobie"))]) =
      (some { method := pystr "POST", url := c.url ++ pystr "/key/person",
              data := some (pystr "\x7b\"name\": \"Tobie\"\x7d"), params := none,
              headers := specHeaders c, auth := specAuth c },
       .ok v) := ⟨rfl, rfl⟩

/-- C9: the unwrap `response[0]["result"]` succeeds exactly when the
decoded response is a non-empty list whose first element is an object with
a `result` key; a table-only select, and any update or patch, against an
empty envelope list fails with `IndexError`, not the not-found
exception. -/
theorem C9_unwrap_definedness (c : SurrealHTTP) (v data : JValue)
    (thing table : PyStr) (rid : Option PyStr) :
    ((∃ x, firstResult v = .ok x) ↔
      (∃ fs rest, v = JValue.arr (JValue.obj fs :: rest) ∧
        (dictLookup fs (pystr "result")).isSome = true)) ∧
    (parseThing thing = .ok (table, none) →
      (c.select (fun _ => JValue.arr []) thing).2 = .error .indexError) ∧
    (parseThing thing = .ok (table, rid) →
      (c.update (fun _ => JValue.arr []) thing data).2 = .error .indexError ∧
      (c.patch (fun _ => JValue.arr []) thing data).2 = .error .indexError) := by
  refine ⟨⟨?_, ?_⟩, ?_, ?_⟩
  · rintro ⟨x, hx⟩
    cases v with
    | null => simp [firstResult, subscript0] at hx
    | boolean b => simp [firstResult, subscript0] at hx
    | num n => simp [firstResult, subscript0] at hx
    | obj fs => simp [firstResult, subscript0] at hx
    | str s =>
        cases s with
        | nil => simp [firstResult, subscript0] at hx
        | cons a t => simp [firstResult, subscript0, getItem] at hx
    | arr xs =>
        cases xs with
        | nil => simp [firstResult, subscript0] at hx
        | cons hd tl =>
            cases hd with
            | null => simp [firstResult, subscript0, getItem] at hx
            | boolean b => simp [firstResult, subscript0, getItem] at hx
            | num n => simp [firstResult, subscript0, getItem] at hx
            | str s2 => simp [firstResult, subscript0, getItem] at hx
            | arr ys => simp [firstResult, subscript0, getItem] at hx
            | obj fs =>
                refine ⟨fs, tl, rfl, ?_⟩
                cases hl : dictLookup fs (pystr "result") with
                | none => simp [firstResult, subscript0, getItem, hl] at hx
                | some y => simp [hl]
  · rintro ⟨fs, rest, rfl, hs⟩
    rw [Option.isSome_iff_exists] at hs
    obtain ⟨y, hy⟩ := hs
    exact ⟨y, by simp [firstResult, subscript0, getItem, hy]⟩
  · intro h
    unfold SurrealHTTP.select
    split
    next e heq => rw [h] at heq; exact absurd heq (by simp)
    next t2 r2 heq =>
      rw [h] at heq
      injection heq with h2
      injection h2 with h3 h4
      subst h3; subst h4
      rfl
  · intro h
    constructor
    · unfold SurrealHTTP.update
      split
      next e heq => rw [h] at heq; exact absurd heq (by simp)
      next t2 r2 heq =>
        rw [h] at heq
        injection heq with h2
        injection h2 with h3 h4
        subst h3; subst h4
        rfl
    · unfold SurrealHTTP.patch
      split
      next e heq => rw [h] at heq; exact absurd heq (by simp)
      next t2 r2 heq =>
        rw [h] at heq
        injection heq with h2
        injection h2 with h3 h4
        subst h3; subst h4
        rfl

/-- C9 witness: a table-only select against an empty envelope list fails
with `IndexError`, and so does a record-scoped patch. -/
theorem C9_witness :
    (demoClient.select (fun _ => JValue.arr []) (pystr "person")).2 =
      .error .indexError ∧
    (demoClient.patch (fun _ => JValue.arr []) (pystr "person:abc")
      JValue.null).2 = .error .indexError :=
  ⟨(C9_unwrap_definedness demoClient JValue.null JValue.null (pystr "person")
      (pystr "person") none).2.1 (by decide),
   ((C9_unwrap_definedness demoClient JValue.null JValue.null (pystr "person:abc")
      (pystr "person") (some (pystr "abc"))).2.2 (by decide)).2⟩

/-- C10: a thing ending in a colon parses to the empty-string record id;
the issued path is the table-only form because path construction tests the
id's truthiness, yet with an empty response select and create still raise
the not-found exception because the check tests the id against None. -/
theorem C10_empty_record_id (c : SurrealHTTP) (data : JValue) :
    parseThing (pystr "person:") = .ok (pystr "person", some []) ∧
    keyUri (pystr "person") (some []) = pystr "/key/person" ∧
    issuedUrl (c.select (fun _ => JValue.arr []) (pystr "person:")) =
      some (c.url ++ pystr "/key/person") ∧
    (c.select (fun _ => JValue.arr []) (pystr "person:")).2 =
      .error (.surrealException (pystr "Key  not found in table person")) ∧
    issuedUrl (c.create (fun _ => JValue.arr []) (pystr "person:") data) =
      some (c.url ++ pystr "/key/person") ∧
    (c.create (fun _ => JValue.arr []) (pystr "person:") data).2 =
      .error (.surrealException (pystr "Key  not found in table person")) :=
  ⟨rfl, rfl, rfl, rfl, rfl, rfl⟩
